import Mathlib

/-!
Verification development for the build-process-watcher repository.

The definitions below are a shallow embedding of the rendering pipeline in
src/cleanup.ts: log parsing (parseLogFile), per-timestamp aggregation, the
downsampler used by the mermaid diagram generator (generateMermaidChart), the
edge and style-class emission of the diagram, and the scale computations of the
SVG chart generator (generateSvg), plus the monitoring-duration field of the
run() summary.  JavaScript numbers are modelled as exact rationals; the one
place where an infinite JavaScript value is observable (the x-scale division)
is modelled by an explicit JsNum type.  Strings are processed through
character-list helpers that mirror the JavaScript String methods used by the
source (split on a one-character separator, trim, first-occurrence replace).
-/

set_option maxRecDepth 10000

namespace BuildProcessWatcher

/-- Whitespace test matching the characters relevant to the log format
(JavaScript trim also strips other unicode spaces, which never occur here). -/
def isJsSpace (c : Char) : Bool := c = ' ' || c = '\t' || c = '\n' || c = '\r'

/-- Model of JavaScript String.prototype.split with a one-character separator:
splitting the empty string yields one empty field, and every separator
occurrence starts a new field. -/
def splitOnChar (sep : Char) : List Char → List (List Char)
  | [] => [[]]
  | c :: cs =>
    if c = sep then [] :: splitOnChar sep cs
    else match splitOnChar sep cs with
      | [] => [[c]]
      | g :: gs => (c :: g) :: gs

/-- Split a string on a one-character separator, as `text.split(sep)`. -/
def splitOn1 (sep : Char) (s : String) : List String :=
  (splitOnChar sep s.data).map String.mk

/-- Model of `s.trim()`: strip whitespace from both ends. -/
def trimSpace (s : String) : String :=
  String.mk (((s.data.dropWhile isJsSpace).reverse.dropWhile isJsSpace).reverse)

/-- Model of `s.replace('MB', '')`: remove the first occurrence of "MB". -/
def stripMB : List Char → List Char
  | [] => []
  | 'M' :: 'B' :: r => r
  | c :: r => c :: stripMB r

/-- Decimal digit accumulation for the numeric parser. -/
def digitsToNat (ds : List Char) : Nat := ds.foldl (fun a c => a * 10 + (c.toNat - 48)) 0

/-- Model of JavaScript parseFloat for the plain decimal numbers occurring in
the log: optional leading whitespace, optional sign, integer digits, optional
fractional digits.  parseFloat returns NaN when no digit is found; that case is
modelled as 0 and is never exercised by well-formed log input (exponent
notation likewise never occurs in the log format). -/
def parseFloat (s : String) : ℚ :=
  let cs := s.data.dropWhile isJsSpace
  let sc : ℚ × List Char :=
    match cs with
    | '-' :: r => (-1, r)
    | '+' :: r => (1, r)
    | _ => (1, cs)
  let ip := sc.2.takeWhile Char.isDigit
  let rest := sc.2.dropWhile Char.isDigit
  let fp : List Char :=
    match rest with
    | '.' :: r => r.takeWhile Char.isDigit
    | _ => []
  if ip.isEmpty && fp.isEmpty then 0
  else sc.1 * ((digitsToNat ip : ℚ) + (digitsToNat fp : ℚ) / ((10 : ℚ) ^ fp.length))

/-- The per-process series of parseLogFile: parallel lists of timestamps and
resident-memory values, exactly the ProcessData interface of cleanup.ts. -/
structure ProcessData where
  timestamps : List String
  rss : List ℚ
deriving DecidableEq, Repr

/-- Result shape of parseLogFile: the insertion-ordered map from composite key
to series (modelled as an association list, as a JavaScript Map preserves
insertion order), and the sorted deduplicated timestamp union. -/
structure ParseResult where
  processes : List (String × ProcessData)
  timestamps : List String
deriving DecidableEq, Repr

/-- Map update of cleanup.ts: create the entry on first sight of a key, then
push the timestamp and rss value onto its parallel lists. -/
def updateProc (key ts : String) (v : ℚ) :
    List (String × ProcessData) → List (String × ProcessData)
  | [] => [(key, ⟨[ts], [v]⟩)]
  | (k, d) :: rest =>
    if k = key then (k, ⟨d.timestamps ++ [ts], d.rss ++ [v]⟩) :: rest
    else (k, d) :: updateProc key ts v rest

/-- Set insertion of cleanup.ts (`timestamps.add`): keep insertion order,
ignore duplicates. -/
def addTs (l : List String) (t : String) : List String := if t ∈ l then l else l ++ [t]

/-- Default JavaScript string comparison (by code unit; the log timestamps are
ASCII, where code units and code points agree). -/
def jsStrLt : List Char → List Char → Bool
  | [], [] => false
  | [], _ :: _ => true
  | _ :: _, [] => false
  | a :: as, b :: bs =>
    if a.toNat < b.toNat then true
    else if b.toNat < a.toNat then false
    else jsStrLt as bs

/-- Insert into a sorted list, used to model `Array.from(set).sort()`. -/
def insertSorted (x : String) : List String → List String
  | [] => [x]
  | y :: ys => if jsStrLt y.data x.data then y :: insertSorted x ys else x :: y :: ys

/-- Sort a list of strings in the default JavaScript order. -/
def sortStrings (l : List String) : List String := l.foldr insertSorted []

/-- One iteration of the per-line loop of parseLogFile: trim the line, split on
the pipe, discard the line unless it has exactly six fields, otherwise trim the
fields, parse the RSS field after removing its MB suffix, and record the sample
under the `pid-name` composite key.  The source destructures the six trimmed
fields positionally; that is modelled by positional access. -/
def parseStep (acc : ParseResult) (line : String) : ParseResult :=
  let parts := splitOn1 '|' (trimSpace line)
  if parts.length = 6 then
    let q := parts.map trimSpace
    let ts := q.getD 0 ""
    let pid := q.getD 1 ""
    let nm := q.getD 2 ""
    let rssStr := q.getD 5 ""
    let v := parseFloat (String.mk (stripMB rssStr.data))
    let key := pid ++ "-" ++ nm
    ⟨updateProc key ts v acc.processes, addTs acc.timestamps ts⟩
  else acc

/-- parseLogFile on the list of lines: skip the first two lines, fold the
per-line step, and sort the deduplicated timestamp union. -/
def parseLines (lines : List String) : ParseResult :=
  let r := (lines.drop 2).foldl parseStep ⟨[], []⟩
  ⟨r.processes, sortStrings r.timestamps⟩

/-- parseLogFile of cleanup.ts on the full log text (split on newlines). -/
def parseLogFile (text : String) : ParseResult := parseLines (splitOn1 '\n' text)

/-- The value a series contributes at a timestamp:
`p.rss[p.timestamps.indexOf(timestamp)]` (only looked up when the timestamp is
present, in which case the index is in range). -/
def rssAtTime (p : ProcessData) (t : String) : ℚ :=
  p.rss.getD (p.timestamps.indexOf t) 0

/-- The aggregator of cleanup.ts (identical in generateMermaidChart and
generateSvg): filter the series to those containing the timestamp and sum their
values at it. -/
def aggregateAt (procs : List (String × ProcessData)) (t : String) : ℚ :=
  ((procs.map Prod.snd).filter (fun p => p.timestamps.contains t)).foldl
    (fun s p => s + rssAtTime p t) 0

/-- The aggregated series over a list of timestamps (`aggregatedRss` in the
source; generateMermaidChart applies it to the sampled timestamps and
generateSvg to the full timeline). -/
def aggregatedRss (procs : List (String × ProcessData)) (ts : List String) : List ℚ :=
  ts.map (aggregateAt procs)

/-- Target point density of generateMermaidChart. -/
def targetPoints (n : Nat) : Nat := if n < 30 then n else if n < 100 then 20 else 30

/-- Sampling stride of generateMermaidChart, `Math.ceil(n / targetPoints)` as a
ceiling division.  For n = 0 the JavaScript expression is NaN and the filter
below keeps nothing of an empty list either way, so the two models agree on
every input. -/
def sampleInterval (n : Nat) : Nat := (n + targetPoints n - 1) / targetPoints n

/-- The downsampler of generateMermaidChart:
`timestamps.filter((_, i) => i % interval === 0)`. -/
def sampledTimestamps (ts : List String) : List String :=
  (ts.enum.filter (fun p => p.1 % sampleInterval ts.length == 0)).map Prod.snd

/-- Node identifier sanitization of generateMermaidChart:
`key.replace(/[^a-zA-Z0-9]/g, '_')`. -/
def cleanKey (k : String) : String :=
  String.mk (k.data.map (fun c => if c.isAlphanum then c else '_'))

/-- Decimal digits of a natural number (fuel-based so that it computes by
structural recursion; the fuel n + 1 always suffices). -/
def natDigits : Nat → Nat → List Char
  | 0, _ => []
  | fuel + 1, n =>
    if n < 10 then [Char.ofNat (48 + n)]
    else natDigits fuel (n / 10) ++ [Char.ofNat (48 + n % 10)]

/-- Decimal rendering of a natural number, for the `_${i}` index suffixes in
the diagram text. -/
def natToStr (n : Nat) : String := String.mk (natDigits (n + 1) n)

/-- Indices i of sampled timestamps for which generateMermaidChart emits the
sequential edge `cleanKey_(i-1) --> cleanKey_i` for one series: the source maps
over the sampled timestamps with their index, skips i = 0, and skips the pair
when either `indexOf` lookup returns -1 (that is, when the series lacks an
entry at either sampled timestamp). -/
def seriesEdgeIdx (d : ProcessData) (sampled : List String) : List Nat :=
  (List.range sampled.length).filter (fun i =>
    decide (1 ≤ i) && d.timestamps.contains (sampled.getD (i - 1) "") &&
      d.timestamps.contains (sampled.getD i ""))

/-- Indices i for which generateMermaidChart emits the aggregate edge
`Agg_(i-1) --> Agg_i`: every index except 0, with no per-series condition. -/
def aggEdgeIdx (sampled : List String) : List Nat :=
  (List.range sampled.length).filter (fun i => decide (1 ≤ i))

/-- The process node identifiers emitted inside the per-timestamp subgraphs of
generateMermaidChart: for each sampled timestamp index i, one node
`cleanKey(key)_i` per series that has an entry at that timestamp. -/
def processNodeIds (procs : List (String × ProcessData)) (sampled : List String) :
    List String :=
  (List.range sampled.length).flatMap (fun i =>
    procs.filterMap (fun kd =>
      if kd.2.timestamps.contains (sampled.getD i "") then
        some (cleanKey kd.1 ++ "_" ++ natToStr i)
      else none))

/-- The aggregate node identifiers emitted by generateMermaidChart: `Agg_i` for
every sampled timestamp index i. -/
def aggNodeIds (sampled : List String) : List String :=
  (List.range sampled.length).map (fun i => "Agg_" ++ natToStr i)

/-- The style-class statements generateMermaidChart emits for the process
class: `class cleanKey(key) process`, one per key, with no index suffix. -/
def processClassLines (procs : List (String × ProcessData)) : List String :=
  procs.map (fun kd => "class " ++ cleanKey kd.1 ++ " process")

/-- The style-class statements generateMermaidChart emits for the aggregate
class: `class Agg_i aggregated`, one per sampled timestamp index. -/
def aggClassLines (sampled : List String) : List String :=
  (List.range sampled.length).map (fun i => "class Agg_" ++ natToStr i ++ " aggregated")

/-- All rss values of all series, `flatMap(p => p.rss)` in generateSvg. -/
def flatRss (procs : List (String × ProcessData)) : List ℚ :=
  (procs.map (fun kd => kd.2.rss)).flatten

/-- Maximum of a list of values, as `Math.max(...l)` on a non-empty list.
JavaScript yields negative infinity on an empty spread; the 0 returned here for
the empty list is only ever relied on under non-emptiness hypotheses. -/
def listMax : List ℚ → ℚ
  | [] => 0
  | x :: xs => xs.foldl max x

/-- The overall maximum of generateSvg: the larger of the per-series maximum
and the aggregated-series maximum. -/
def maxRssOf (procs : List (String × ProcessData)) (ts : List String) : ℚ :=
  max (listMax (flatRss procs)) (listMax (aggregatedRss procs ts))

/-- Y-axis maximum of generateSvg: `Math.ceil(maxRss / 1000) * 1000`. -/
def yAxisMaxOf (procs : List (String × ProcessData)) (ts : List String) : ℤ :=
  ⌈maxRssOf procs ts / 1000⌉ * 1000

/-- The gridline loop of generateSvg, `for (let i = 0; i <= yAxisMax; i += 500)`,
modelled with a fuel argument large enough to cover every iteration. -/
def gridLoop : Nat → ℤ → ℤ → List ℤ
  | 0, _, _ => []
  | fuel + 1, i, m => if i ≤ m then i :: gridLoop fuel (i + 500) m else []

/-- The multiples of 500 at which generateSvg draws gridlines, from 0 up to the
Y-axis maximum. -/
def gridValues (m : ℤ) : List ℤ := gridLoop (m.toNat / 500 + 1) 0 m

/-- A JavaScript number as observed by the x-scale computation: finite, an
infinity, or NaN. -/
inductive JsNum where
  | finite (q : ℚ)
  | posInf
  | negInf
  | nan
deriving DecidableEq, Repr

/-- JavaScript division on the values reachable in the x-scale computation:
division by zero yields an infinity (or NaN for 0/0), never an error. -/
def jsDiv (a b : ℚ) : JsNum :=
  if b = 0 then (if a = 0 then JsNum.nan else if 0 < a then JsNum.posInf else JsNum.negInf)
  else JsNum.finite (a / b)

/-- JavaScript `x || 1`: the fallback fires exactly on falsy numbers, namely 0
and NaN; infinities are truthy and pass through unchanged. -/
def jsOrOne : JsNum → JsNum
  | JsNum.finite q => if q = 0 then JsNum.finite 1 else JsNum.finite q
  | JsNum.nan => JsNum.finite 1
  | v => v

/-- The x-scale of generateSvg for a timeline of n timestamps:
`(width - margin.left - margin.right) / (timestamps.length - 1) || 1` with
width 1400, left margin 100, right margin 300. -/
def xScaleOf (n : Nat) : JsNum := jsOrOne (jsDiv (1400 - 100 - 300) ((n : ℚ) - 1))

/-- The monitoring-duration field of the run() summary: a from/to range when
any timestamp exists, the sentinel "N/A" otherwise. -/
def monitoringDuration (ts : List String) : String :=
  if ts.length > 0 then "from " ++ ts.getD 0 "" ++ " to " ++ ts.getD (ts.length - 1) ""
  else "N/A"

/-- Two log lines agree on everything parseLogFile reads except the two heap
fields: both split into exactly six fields, and the trimmed timestamp, PID,
name and RSS fields (positions 0, 1, 2 and 5) coincide. -/
def heapAgnostic (a b : String) : Bool :=
  ((splitOn1 '|' (trimSpace a)).length == 6) &&
  ((splitOn1 '|' (trimSpace b)).length == 6) &&
  (((splitOn1 '|' (trimSpace a)).map trimSpace).getD 0 ""
    == ((splitOn1 '|' (trimSpace b)).map trimSpace).getD 0 "") &&
  (((splitOn1 '|' (trimSpace a)).map trimSpace).getD 1 ""
    == ((splitOn1 '|' (trimSpace b)).map trimSpace).getD 1 "") &&
  (((splitOn1 '|' (trimSpace a)).map trimSpace).getD 2 ""
    == ((splitOn1 '|' (trimSpace b)).map trimSpace).getD 2 "") &&
  (((splitOn1 '|' (trimSpace a)).map trimSpace).getD 5 ""
    == ((splitOn1 '|' (trimSpace b)).map trimSpace).getD 5 "")

/-! Concrete inputs used by the individual claims. -/

/-- Series 101-DaemonA of the worked aggregation example. -/
def c1procA : ProcessData := ⟨["00:00:00", "00:00:05", "00:00:10"], [100, 150, 200]⟩

/-- Series 202-DaemonB of the worked aggregation example. -/
def c1procB : ProcessData := ⟨["00:00:00", "00:00:05"], [50, 50]⟩

/-- The series mapping of the worked aggregation example. -/
def c1procs : List (String × ProcessData) := [("101-DaemonA", c1procA), ("202-DaemonB", c1procB)]

/-- The union timeline of the worked aggregation example. -/
def c1timeline : List String := ["00:00:00", "00:00:05", "00:00:10"]

/-- A log whose third data line has only five fields, sandwiched between two
well-formed lines. -/
def c3text : String :=
  "Starting memory monitor at Mon\nElapsed_Time | PID | Name | Heap_Used_MB | Heap_Capacity_MB | RSS_MB\n00:00:00 | 101 | DaemonA | 10.0MB | 20.0MB | 100.0MB\n00:00:05 | 101 | DaemonA | 10.0MB | 150.0MB\n00:00:10 | 101 | DaemonA | 10.0MB | 20.0MB | 200.0MB"

/-- A dataset whose peak value is 2300. -/
def c4procs : List (String × ProcessData) := [("101-DaemonA", ⟨["00:00:00"], [2300]⟩)]

/-- The timeline of the peak-2300 dataset. -/
def c4ts : List String := ["00:00:00"]

/-- A log containing only the run header and the column header. -/
def c8text : String :=
  "Starting memory monitor at Mon\nElapsed_Time | PID | Name | Heap_Used_MB | Heap_Capacity_MB | RSS_MB"

/-- A one-series mapping for the style-class check. -/
def c9procs : List (String × ProcessData) := [("101-DaemonA", ⟨["00:00:00"], [100]⟩)]

/-- A one-data-line log. -/
def c10textA : String :=
  "Starting memory monitor at Mon\nElapsed_Time | PID | Name | Heap_Used_MB | Heap_Capacity_MB | RSS_MB\n00:00:00 | 101 | DaemonA | 10.0MB | 20.0MB | 100.0MB"

/-- The same log with both heap fields changed. -/
def c10textB : String :=
  "Starting memory monitor at Mon\nElapsed_Time | PID | Name | Heap_Used_MB | Heap_Capacity_MB | RSS_MB\n00:00:00 | 101 | DaemonA | 99.9MB | 88.8MB | 100.0MB"

end BuildProcessWatcher

namespace BuildProcessWatcher

/-! Helper lemmas. -/

/-- Folding addition over a list starting from an accumulator is the
accumulator plus the sum of the mapped values. -/
theorem foldl_add_eq_sum (f : ProcessData → ℚ) :
    ∀ (l : List ProcessData) (a : ℚ), l.foldl (fun s p => s + f p) a = a + (l.map f).sum := by
  intro l
  induction l with
  | nil => intro a; simp
  | cons x xs ih => intro a; simp [ih, add_assoc]

/-- Summing the mapped values of a filtered list equals summing values made
zero where the filter predicate fails. -/
theorem sum_filter_eq_sum_ite (q : ProcessData → Bool) (f : ProcessData → ℚ) :
    ∀ l : List ProcessData,
      ((l.filter q).map f).sum = (l.map (fun p => if q p then f p else 0)).sum := by
  intro l
  induction l with
  | nil => rfl
  | cons x xs ih =>
    by_cases h : q x
    · simp [List.filter_cons, h, ih]
    · simp [List.filter_cons, h, ih]

/-- The sampling stride is positive whenever the timeline is non-empty. -/
theorem interval_pos (n : Nat) (h : 0 < n) : 0 < sampleInterval n := by
  unfold sampleInterval targetPoints
  by_cases h30 : n < 30
  · rw [if_pos h30]
    show 1 ≤ (n + n - 1) / n
    rw [Nat.le_div_iff_mul_le h]
    omega
  · rw [if_neg h30]
    by_cases h100 : n < 100
    · rw [if_pos h100]; omega
    · rw [if_neg h100]; omega

/-- The modulo test of the sampling filter is the divisibility test. -/
theorem mod_beq_eq_decide_dvd (i s : Nat) : (i % s == 0) = decide (s ∣ i) := by
  rw [Bool.eq_iff_iff]
  simp only [beq_iff_eq, decide_eq_true_eq]
  exact ⟨Nat.dvd_of_mod_eq_zero, Nat.mod_eq_zero_of_dvd⟩

/-- The number of multiples of a positive stride below n is the ceiling of
n divided by the stride. -/
theorem countP_multiples (s : Nat) (hs : 0 < s) :
    ∀ n : Nat, (List.range n).countP (fun i => i % s == 0) = (n + s - 1) / s := by
  intro n
  induction n with
  | zero => simp [Nat.div_eq_of_lt (by omega : s - 1 < s)]
  | succ n ih =>
    rw [List.range_succ, List.countP_append, ih]
    have hsing : List.countP (fun i => i % s == 0) [n] = if n % s = 0 then 1 else 0 := by
      simp [List.countP_cons]
    rw [hsing]
    by_cases hd : n % s = 0
    · rw [if_pos hd]
      obtain ⟨q, rfl⟩ : ∃ q, n = s * q := Nat.dvd_of_mod_eq_zero hd
      have hexp : s * (q + 1) = s * q + s := Nat.mul_succ s q
      have l1 : (s * q + s - 1) / s = q := by
        rw [show s * q + s - 1 = (s - 1) + s * q by omega, Nat.add_mul_div_left _ _ hs,
          Nat.div_eq_of_lt (by omega)]
        omega
      have l2 : (s * q + 1 + s - 1) / s = q + 1 := by
        rw [show s * q + 1 + s - 1 = 0 + s * (q + 1) by omega, Nat.add_mul_div_left _ _ hs,
          Nat.zero_div]
        omega
      omega
    · rw [if_neg hd]
      have hq := Nat.div_add_mod n s
      have hr : n % s < s := Nat.mod_lt _ hs
      have hexp : s * (n / s + 1) = s * (n / s) + s := Nat.mul_succ s (n / s)
      have l1 : (n + s - 1) / s = n / s + 1 := by
        rw [show n + s - 1 = (n % s - 1) + s * (n / s + 1) by omega,
          Nat.add_mul_div_left _ _ hs, Nat.div_eq_of_lt (by omega)]
        omega
      have l2 : (n + 1 + s - 1) / s = n / s + 1 := by
        rw [show n + 1 + s - 1 = n % s + s * (n / s + 1) by omega,
          Nat.add_mul_div_left _ _ hs, Nat.div_eq_of_lt (by omega)]
        omega
      omega

/-- The downsampled list has exactly ceiling(n / stride) entries when the
stride is positive. -/
theorem sampled_length (ts : List String) (hs : 0 < sampleInterval ts.length) :
    (sampledTimestamps ts).length
      = (ts.length + sampleInterval ts.length - 1) / sampleInterval ts.length := by
  unfold sampledTimestamps
  rw [List.length_map, ← List.countP_eq_length_filter]
  have h2 := List.countP_map (fun i => i % sampleInterval ts.length == 0)
    (Prod.fst (α := Nat) (β := String)) ts.enum
  rw [List.enum_map_fst] at h2
  calc List.countP (fun p => p.1 % sampleInterval ts.length == 0) ts.enum
      = List.countP (fun i => i % sampleInterval ts.length == 0) (List.range ts.length) := by
        rw [h2]; rfl
    _ = _ := countP_multiples _ hs _

/-- On a non-empty timeline the downsampler keeps the head (index 0 always
passes the stride filter). -/
theorem sampled_cons (x : String) (xs : List String) :
    sampledTimestamps (x :: xs)
      = x :: (((x :: xs).enum.tail.filter
          (fun p => p.1 % sampleInterval (x :: xs).length == 0)).map Prod.snd) := by
  unfold sampledTimestamps
  rw [List.enum_cons]
  rw [List.filter_cons_of_pos (by simp)]
  rfl

/-- A congruent parse step: two lines that agree on the timestamp, PID, name
and RSS fields (both with exactly six fields) produce the same state update. -/
theorem parseStep_congr (a b : String) (h : heapAgnostic a b = true) (acc : ParseResult) :
    parseStep acc a = parseStep acc b := by
  unfold heapAgnostic at h
  simp only [Bool.and_eq_true, beq_iff_eq] at h
  obtain ⟨⟨⟨⟨⟨h6a, h6b⟩, e0⟩, e1⟩, e2⟩, e5⟩ := h
  unfold parseStep
  simp only []
  rw [if_pos h6a, if_pos h6b, e0, e1, e2, e5]

/-- Folding the parse step over two pointwise heap-agnostic line lists gives
the same result. -/
theorem foldl_parseStep_congr :
    ∀ (l1 l2 : List String) (acc : ParseResult), l1.length = l2.length →
      (∀ pr ∈ l1.zip l2, heapAgnostic pr.1 pr.2 = true) →
      l1.foldl parseStep acc = l2.foldl parseStep acc := by
  intro l1
  induction l1 with
  | nil =>
    intro l2 acc hl _
    cases l2 with
    | nil => rfl
    | cons b bs => simp at hl
  | cons a as ih =>
    intro l2 acc hl hz
    cases l2 with
    | nil => simp at hl
    | cons b bs =>
      simp only [List.foldl_cons]
      rw [parseStep_congr a b (hz (a, b) (by simp)) acc]
      exact ih bs _ (by simpa using hl) (fun pr hpr => hz pr (by simp [hpr]))

/-- Membership in the gridline loop, for any fuel large enough to let the loop
run to completion: the collected values are the multiples of 500 between the
loop counter and the bound. -/
theorem gridLoop_mem : ∀ (fuel : Nat) (i m v : ℤ), m - i < 500 * fuel →
    (v ∈ gridLoop fuel i m ↔ i ≤ v ∧ v ≤ m ∧ (500 : ℤ) ∣ v - i) := by
  intro fuel
  induction fuel with
  | zero =>
    intro i m v h
    simp only [gridLoop, List.not_mem_nil, false_iff]
    omega
  | succ fuel ih =>
    intro i m v h
    simp only [gridLoop]
    by_cases him : i ≤ m
    · rw [if_pos him]
      simp only [List.mem_cons]
      rw [ih (i + 500) m v (by omega)]
      constructor
      · rintro (rfl | ⟨h1, h2, h3⟩)
        · exact ⟨le_refl _, him, ⟨0, by ring⟩⟩
        · refine ⟨by omega, h2, ?_⟩
          omega
      · rintro ⟨h1, h2, h3⟩
        by_cases hv : v = i
        · exact Or.inl hv
        · right
          refine ⟨by omega, h2, by omega⟩
    · rw [if_neg him]
      simp only [List.not_mem_nil, false_iff]
      omega

/-- The gridline values are exactly the multiples of 500 from 0 up to the
Y-axis maximum. -/
theorem gridValues_mem (m v : ℤ) :
    v ∈ gridValues m ↔ 0 ≤ v ∧ v ≤ m ∧ (500 : ℤ) ∣ v := by
  unfold gridValues
  rw [gridLoop_mem _ 0 m v (by omega)]
  simp

/-! Claim theorems. -/

/-- C1: for every series mapping and timestamp, the aggregator returns the sum
over exactly the series having an entry at that timestamp of their value
there, series without an entry contributing zero; on the worked example
(101-DaemonA with RSS 100, 150, 200 and 202-DaemonB with RSS 50, 50) the
aggregate over the union timeline is 150, 200, 200. -/
theorem claim1_aggregator_sums_present_series :
    (∀ (procs : List (String × ProcessData)) (t : String),
      aggregateAt procs t
        = ((procs.map Prod.snd).map
            (fun p => if p.timestamps.contains t then rssAtTime p t else 0)).sum) ∧
    c1timeline.map (aggregateAt c1procs) = [150, 200, 200] := by
  constructor
  · intro procs t
    unfold aggregateAt
    rw [foldl_add_eq_sum, zero_add, sum_filter_eq_sum_ite]
  · simp [c1timeline, c1procs, c1procA, c1procB, aggregateAt, rssAtTime,
      List.indexOf, List.findIdx, List.findIdx.go]
    norm_num

/-- C2: the downsampler keeps exactly the indices that are multiples of the
stride; timelines shorter than 30 are returned whole (target density n,
stride 1); n = 50 gives target 20 and stride 3; n = 500 gives target 30 and
stride 17. -/
theorem claim2_downsampler_density_stride_subsequence :
    (∀ ts : List String,
      sampledTimestamps ts
        = (ts.enum.filter (fun p => decide (sampleInterval ts.length ∣ p.1))).map Prod.snd) ∧
    (∀ ts : List String, ts.length < 30 → sampledTimestamps ts = ts) ∧
    (targetPoints 50 = 20 ∧ sampleInterval 50 = 3) ∧
    (targetPoints 500 = 30 ∧ sampleInterval 500 = 17) ∧
    (∀ n : Nat, targetPoints n = if n < 30 then n else if n < 100 then 20 else 30) := by
  refine ⟨?_, ?_, ⟨by decide, by decide⟩, ⟨by decide, by decide⟩, fun n => rfl⟩
  · intro ts
    unfold sampledTimestamps
    congr 1
    apply List.filter_congr
    intro p _
    exact mod_beq_eq_decide_dvd p.1 _
  · intro ts h
    rcases ts with _ | ⟨x, xs⟩
    · rfl
    · have hs : sampleInterval (x :: xs).length = 1 := by
        unfold sampleInterval targetPoints
        rw [if_pos h]
        apply Nat.div_eq_of_lt_le
        · simp only [List.length_cons]; omega
        · simp only [List.length_cons]; omega
      unfold sampledTimestamps
      rw [hs]
      rw [List.filter_congr (q := fun _ => true) (by intro p _; simp [Nat.mod_one])]
      rw [List.filter_true]
      exact List.enum_map_snd _

/-- C2 witness: a ten-element timeline is below the 30-point threshold and is
returned in full by the downsampler. -/
theorem claim2_downsampler_density_stride_subsequence_witness :
    (["a", "b", "c", "d", "e", "f", "g", "h", "i", "j"] : List String).length < 30 ∧
    sampledTimestamps ["a", "b", "c", "d", "e", "f", "g", "h", "i", "j"]
      = ["a", "b", "c", "d", "e", "f", "g", "h", "i", "j"] :=
  ⟨by decide, claim2_downsampler_density_stride_subsequence.2.1 _ (by decide)⟩

/-- C3: the parser drops exactly the first two lines (their contents are
irrelevant), leaves the state unchanged on any line that does not split into
exactly six fields, and on a log whose five-field line sits between two
well-formed lines it still captures both neighbours. -/
theorem claim3_logparser_skips_headers_drops_malformed :
    (∀ (h1 h2 h3 h4 : String) (rest : List String),
      parseLines (h1 :: h2 :: rest) = parseLines (h3 :: h4 :: rest)) ∧
    (∀ (acc : ParseResult) (line : String),
      (splitOn1 '|' (trimSpace line)).length ≠ 6 → parseStep acc line = acc) ∧
    parseLogFile c3text
      = ⟨[("101-DaemonA", ⟨["00:00:00", "00:00:10"], [100, 200]⟩)],
          ["00:00:00", "00:00:10"]⟩ := by
  refine ⟨fun h1 h2 h3 h4 rest => rfl, ?_, ?_⟩
  · intro acc line h
    unfold parseStep
    simp only []
    rw [if_neg h]
  · simp [parseLogFile, parseLines, parseStep, c3text, splitOn1, splitOnChar, trimSpace,
      isJsSpace, stripMB, parseFloat, digitsToNat, updateProc, addTs, sortStrings,
      insertSorted, jsStrLt]

/-- C3 witness: a five-field line is discarded without changing the parser
state. -/
theorem claim3_logparser_skips_headers_drops_malformed_witness :
    (splitOn1 '|' (trimSpace "00:00:05 | 101 | DaemonA | 10.0MB | 150.0MB")).length ≠ 6 ∧
    parseStep ⟨[], []⟩ "00:00:05 | 101 | DaemonA | 10.0MB | 150.0MB" = ⟨[], []⟩ :=
  ⟨by decide,
    claim3_logparser_skips_headers_drops_malformed.2.1 ⟨[], []⟩ _ (by decide)⟩

/-- C4: for a non-empty dataset the Y-axis maximum is the overall maximum
value rounded up to the next multiple of 1000, the gridlines are exactly the
multiples of 500 from 0 up to that maximum, and a dataset whose peak value is
2300 gets Y-axis maximum 3000 with gridlines 0, 500, ..., 3000. -/
theorem claim4_chart_yaxis_ceiling_and_gridlines :
    (∀ (procs : List (String × ProcessData)) (ts : List String),
      flatRss procs ≠ [] → ts ≠ [] →
        yAxisMaxOf procs ts = ⌈maxRssOf procs ts / 1000⌉ * 1000 ∧
        ∀ v : ℤ, v ∈ gridValues (yAxisMaxOf procs ts) ↔
          0 ≤ v ∧ v ≤ yAxisMaxOf procs ts ∧ (500 : ℤ) ∣ v) ∧
    yAxisMaxOf c4procs c4ts = 3000 ∧
    gridValues 3000 = [0, 500, 1000, 1500, 2000, 2500, 3000] := by
  refine ⟨fun procs ts _ _ => ⟨rfl, fun v => gridValues_mem _ v⟩, ?_, by decide⟩
  have hmax : maxRssOf c4procs c4ts = 2300 := by
    simp [maxRssOf, flatRss, listMax, aggregatedRss, aggregateAt, rssAtTime, c4procs, c4ts,
      List.indexOf, List.findIdx, List.findIdx.go]
  have hceil : ⌈(2300 : ℚ) / 1000⌉ = 3 := by
    rw [Int.ceil_eq_iff]
    constructor
    · norm_num
    · norm_num
  unfold yAxisMaxOf
  rw [hmax, hceil]
  norm_num

/-- C4 witness: the peak-2300 dataset is non-empty and its gridline list is
characterized by the multiples-of-500 property. -/
theorem claim4_chart_yaxis_ceiling_and_gridlines_witness :
    flatRss c4procs ≠ [] ∧ c4ts ≠ [] ∧
    (∀ v : ℤ, v ∈ gridValues (yAxisMaxOf c4procs c4ts) ↔
      0 ≤ v ∧ v ≤ yAxisMaxOf c4procs c4ts ∧ (500 : ℤ) ∣ v) :=
  ⟨by decide, by decide,
    (claim4_chart_yaxis_ceiling_and_gridlines.1 c4procs c4ts (by decide) (by decide)).2⟩

/-- C5: with exactly one timestamp the x-scale computation divides 1000 by
zero and yields positive infinity; the `|| 1` fallback does not fire because
infinity is truthy, so the scale is not the finite 1000 the claim requires
(with two timestamps the division is finite as expected). -/
theorem claim5_xscale_single_timestamp_is_infinite :
    xScaleOf 1 = JsNum.posInf ∧ xScaleOf 1 ≠ JsNum.finite 1000 ∧
      xScaleOf 2 = JsNum.finite 1000 := by
  refine ⟨?_, fun h => ?_, ?_⟩
  · norm_num [xScaleOf, jsDiv, jsOrOne]
  · rw [show xScaleOf 1 = JsNum.posInf by norm_num [xScaleOf, jsDiv, jsOrOne]] at h
    exact JsNum.noConfusion h
  · norm_num [xScaleOf, jsDiv, jsOrOne]

/-- C6: a sequential edge for a series is emitted at sampled index i exactly
when i is a successor index and the series has entries at both the previous
and the current sampled timestamp, while an aggregate edge is emitted at every
successor index unconditionally. -/
theorem claim6_sequential_and_aggregate_edges
    (d : ProcessData) (sampled : List String) (i : Nat) :
    (i ∈ seriesEdgeIdx d sampled ↔
      1 ≤ i ∧ i < sampled.length ∧ sampled.getD (i - 1) "" ∈ d.timestamps ∧
        sampled.getD i "" ∈ d.timestamps) ∧
    (i ∈ aggEdgeIdx sampled ↔ 1 ≤ i ∧ i < sampled.length) := by
  constructor
  · unfold seriesEdgeIdx
    simp only [List.mem_filter, List.mem_range, Bool.and_eq_true, decide_eq_true_eq,
      List.contains, List.elem_iff]
    tauto
  · unfold aggEdgeIdx
    simp only [List.mem_filter, List.mem_range, decide_eq_true_eq]
    tauto

/-- C7 counterexample: on an empty timeline the downsampler returns the empty
list, so its output is not always a non-empty subsequence whose first element
is the timestamp at index 0. -/
theorem claim7_empty_timeline_counterexample :
    sampledTimestamps [] = [] ∧ (sampledTimestamps []).head? = none := by
  exact ⟨rfl, rfl⟩

/-- C7 (amended to non-empty input): for every non-empty timeline the
downsampler output is non-empty, starts with the timestamp at index 0, and has
length at most the ceiling of the timeline length divided by the stride. -/
theorem claim7_downsampler_nonempty_head_bound (ts : List String) (h : ts ≠ []) :
    sampledTimestamps ts ≠ [] ∧ (sampledTimestamps ts).head? = ts.head? ∧
      (sampledTimestamps ts).length
        ≤ (ts.length + sampleInterval ts.length - 1) / sampleInterval ts.length := by
  have hn : 0 < ts.length := List.length_pos.mpr h
  have hs : 0 < sampleInterval ts.length := interval_pos _ hn
  rcases ts with _ | ⟨x, xs⟩
  · exact absurd rfl h
  · refine ⟨?_, ?_, le_of_eq (sampled_length _ hs)⟩
    · rw [sampled_cons]; simp
    · rw [sampled_cons]; rfl

/-- C7 witness: a two-element timeline is non-empty and the amended bound
holds on it. -/
theorem claim7_downsampler_nonempty_head_bound_witness :
    (["a", "b"] : List String) ≠ [] ∧
    (sampledTimestamps ["a", "b"] ≠ [] ∧
      (sampledTimestamps ["a", "b"]).head? = (["a", "b"] : List String).head? ∧
      (sampledTimestamps ["a", "b"]).length
        ≤ ((["a", "b"] : List String).length + sampleInterval 2 - 1) / sampleInterval 2) :=
  ⟨by decide, claim7_downsampler_nonempty_head_bound ["a", "b"] (by decide)⟩

/-- C8: a log with only the two header lines parses to zero series and an
empty timeline, the monitoring-duration field shows the N/A sentinel, and the
downsampler and aggregator both return empty output on the empty timeline. -/
theorem claim8_headers_only_log_yields_no_data :
    parseLogFile c8text = ⟨[], []⟩ ∧
    monitoringDuration (parseLogFile c8text).timestamps = "N/A" ∧
    sampledTimestamps (parseLogFile c8text).timestamps = [] ∧
    aggregatedRss (parseLogFile c8text).processes (parseLogFile c8text).timestamps = [] := by
  refine ⟨by decide, by decide, by decide, by decide⟩

/-- C9: the diagram's aggregate style class is applied to the emitted `Agg_i`
node identifiers, but the process style class is applied to the sanitized key
without the index suffix, which matches none of the node identifiers emitted
in the subgraphs (those carry a `_i` suffix). -/
theorem claim9_process_class_misses_suffixed_nodes :
    processClassLines c9procs = ["class 101_DaemonA process"] ∧
    processNodeIds c9procs ["00:00:00"] = ["101_DaemonA_0"] ∧
    ("class 101_DaemonA_0 process") ∉ processClassLines c9procs ∧
    aggClassLines ["00:00:00"] = ["class Agg_0 aggregated"] ∧
    aggNodeIds ["00:00:00"] = ["Agg_0"] := by decide

/-- C10: two log texts whose data lines all have six fields and agree on the
timestamp, PID, name and RSS fields (differing only in the heap fields)
produce identical parse results, hence every function of the parse result
(diagram text, chart text, summary statistics) is identical on them. -/
theorem claim10_heap_fields_do_not_affect_output (t1 t2 : String)
    (hl : ((splitOn1 '\n' t1).drop 2).length = ((splitOn1 '\n' t2).drop 2).length)
    (hz : ∀ pr ∈ ((splitOn1 '\n' t1).drop 2).zip ((splitOn1 '\n' t2).drop 2),
      heapAgnostic pr.1 pr.2 = true) :
    parseLogFile t1 = parseLogFile t2 ∧
      ∀ f : ParseResult → String, f (parseLogFile t1) = f (parseLogFile t2) := by
  have hmain : parseLogFile t1 = parseLogFile t2 := by
    unfold parseLogFile parseLines
    rw [foldl_parseStep_congr _ _ _ hl hz]
  exact ⟨hmain, fun f => congrArg f hmain⟩

/-- C10 witness: two concrete logs differing only in the heap fields satisfy
the agreement hypotheses and parse identically. -/
theorem claim10_heap_fields_do_not_affect_output_witness :
    ((splitOn1 '\n' c10textA).drop 2).length = ((splitOn1 '\n' c10textB).drop 2).length ∧
    (∀ pr ∈ ((splitOn1 '\n' c10textA).drop 2).zip ((splitOn1 '\n' c10textB).drop 2),
      heapAgnostic pr.1 pr.2 = true) ∧
    parseLogFile c10textA = parseLogFile c10textB :=
  ⟨by decide, by decide,
    (claim10_heap_fields_do_not_affect_output c10textA c10textB (by decide) (by decide)).1⟩

end BuildProcessWatcher
